import Mathlib

/-!
Verification of the ASR background worker (`script/asr_worker.py`).

The Python worker is shallowly embedded below:
* pure computations (metric aggregation in `transcribe`, payload
  construction in `submit_success` / `submit_failure`, error truncation)
  become Lean functions over `ℚ` / `String`;
* one iteration of each control loop (`downloader_loop`, `worker_loop`,
  `handle_signal`) becomes a step function from the values the iteration
  reads (queue contents, poll response, download outcome, the shared
  shutdown flag) to the externally visible effects it performs (HTTP report
  attempts, enqueued records, sleeps, loop exit);
* the bounded `queue.Queue` becomes a guarded transition relation on the
  list of queued records.

Python floats are modelled as rationals, JSON values by an explicit `Json`
type, and fallible network calls by explicit outcome parameters.
-/

namespace AsrWorker

/-- JSON values appearing in the worker's request payloads. -/
inductive Json where
  | null : Json
  | str (s : String) : Json
  | num (q : ℚ) : Json
  | bool (b : Bool) : Json
  deriving DecidableEq, Repr

/-- JSON encoding of a Python `Optional[float]` metric. -/
def jsonOfOptNum (o : Option ℚ) : Json :=
  match o with
  | none => Json.null
  | some q => Json.num q

/-- JSON encoding of an optional job identifier. -/
def jsonOfOptId (o : Option Nat) : Json :=
  match o with
  | none => Json.null
  | some i => Json.num (i : ℚ)

/-- Configuration record of the worker (the `Config` dataclass), restricted
to fields the control loops read.  `poll_idle_seconds` is a rational number
of seconds. -/
structure Config where
  api_base : String
  api_token : String
  worker_concurrency : Nat := 2
  max_queue_size : Nat := 8
  poll_idle_seconds : ℚ := 5
  whisper_model : String := "large-v3"
  audio_cache_dir : String := ".asr_cache"
  http_timeout : Nat := 30
  deriving DecidableEq, Repr

/-- One transcription segment as consumed by `transcribe`: start/end times
and the three optional per-segment quality metrics (`getattr(seg, ..., None)`
in the source reads them as possibly absent). -/
structure Segment where
  start : ℚ
  «end» : ℚ
  text : String
  avg_logprob : Option ℚ
  compression_ratio : Option ℚ
  no_speech_prob : Option ℚ
  deriving DecidableEq, Repr

/-- Accumulator of the `for seg in segments_iter` loop in `transcribe`. -/
structure TAcc where
  speech_duration : ℚ
  total_logprob : ℚ
  logprob_count : Nat
  compression_ratios : List ℚ
  no_speech_probs : List ℚ
  deriving DecidableEq, Repr

/-- One iteration of the segment loop in `transcribe`: add the positive
segment duration to `speech_duration`, accumulate `avg_logprob` into a
running sum and count, and append present `compression_ratio` /
`no_speech_prob` values to their lists. -/
def tStep (a : TAcc) (seg : Segment) : TAcc :=
  let dur := seg.«end» - seg.start
  { speech_duration := a.speech_duration + (if dur > 0 then dur else 0)
    total_logprob := a.total_logprob +
      (match seg.avg_logprob with | some v => v | none => 0)
    logprob_count := a.logprob_count +
      (match seg.avg_logprob with | some _ => 1 | none => 0)
    compression_ratios := a.compression_ratios ++ seg.compression_ratio.toList
    no_speech_probs := a.no_speech_probs ++ seg.no_speech_prob.toList }

/-- Result dictionary returned by `transcribe` (field names match the keys
of the Python dict; `elapsed_ms` / `rtf` depend on wall-clock time, passed
in as the `elapsed` argument). -/
structure TranscribeOut where
  text : String
  duration_sec : Option ℚ
  asr_avg_logprob : Option ℚ
  asr_compression_ratio : Option ℚ
  asr_no_speech_prob : Option ℚ
  asr_speech_ratio : Option ℚ
  elapsed_ms : Int
  rtf : Option ℚ
  deriving DecidableEq, Repr

/-- The `transcribe` function of the worker, embedded over the segment list
produced by the model, the reported audio `duration` (`info.duration`, absent
when unknown) and the elapsed wall-clock time.  Matches the source line by
line: the loop is `List.foldl tStep`, then the aggregates are formed exactly
as in the Python (`total/count` when the count is nonzero, mean of the
collected compression ratios, `max(...)` of the collected no-speech
probabilities, `speech_duration / duration` when the duration is a truthy
positive number). -/
def transcribe (segs : List Segment) (duration : Option ℚ) (elapsed : ℚ) :
    TranscribeOut :=
  let a := segs.foldl tStep ⟨0, 0, 0, [], []⟩
  let text := (String.join (segs.map Segment.text)).trim
  let avg_logprob : Option ℚ :=
    if a.logprob_count ≠ 0 then some (a.total_logprob / a.logprob_count)
    else none
  let avg_compression_ratio : Option ℚ :=
    if a.compression_ratios.isEmpty then none
    else some (a.compression_ratios.sum / a.compression_ratios.length)
  let max_no_speech : Option ℚ :=
    if a.no_speech_probs.isEmpty then none else a.no_speech_probs.max?
  let speech_ratio : Option ℚ :=
    match duration with
    | some d => if 0 < d then some (a.speech_duration / d) else none
    | none => none
  let rtf : Option ℚ :=
    match duration with
    | some d => if d ≠ 0 ∧ 0 < elapsed then some (d / elapsed) else none
    | none => none
  { text := text
    duration_sec := duration
    asr_avg_logprob := avg_logprob
    asr_compression_ratio := avg_compression_ratio
    asr_no_speech_prob := max_no_speech
    asr_speech_ratio := speech_ratio
    elapsed_ms := (elapsed * 1000).floor
    rtf := rtf }

/-- Summed positive segment durations, the specification-side reading of the
`speech_duration` accumulation. -/
def speechSum (segs : List Segment) : ℚ :=
  (segs.map fun s => if s.«end» - s.start > 0 then s.«end» - s.start else 0).sum

/-- The segment loop of `transcribe` computes, from any starting
accumulator, the map-sum of positive durations and the `filterMap`s of the
three optional metrics. -/
theorem foldl_tStep (segs : List Segment) (a : TAcc) :
    segs.foldl tStep a =
      ⟨a.speech_duration + speechSum segs,
       a.total_logprob + (segs.filterMap Segment.avg_logprob).sum,
       a.logprob_count + (segs.filterMap Segment.avg_logprob).length,
       a.compression_ratios ++ segs.filterMap Segment.compression_ratio,
       a.no_speech_probs ++ segs.filterMap Segment.no_speech_prob⟩ := by
  induction segs generalizing a with
  | nil => simp [speechSum]
  | cons s t ih =>
    simp only [List.foldl_cons, ih, speechSum, List.map_cons, List.sum_cons,
      List.filterMap_cons]
    cases h₁ : s.avg_logprob <;>
      cases h₂ : s.compression_ratio <;>
      cases h₃ : s.no_speech_prob <;>
      simp [tStep, h₁, h₂, h₃, speechSum] <;> and_intros <;> ring

/-- Outcome of one HTTP POST as seen by the caller: a response with a
status code, or a raised network exception. -/
inductive PostOutcome where
  | status (code : Nat) : PostOutcome
  | exc : PostOutcome
  deriving DecidableEq, Repr

/-- The `http_post_json_ok` helper: `True` exactly on a 200 response; a
non-200 status or an exception is logged and yields `False` (swallowed,
never re-raised). -/
def http_post_json_ok (o : PostOutcome) : Bool :=
  match o with
  | PostOutcome.status code => code == 200
  | PostOutcome.exc => false

/-- One attempted POST to the result endpoint: the JSON body sent and
whether `http_post_json_ok` reported success.  The worker performs exactly
the attempts listed by a step function, in order. -/
structure ReportAttempt where
  url : String
  body : List (String × Json)
  ok : Bool
  deriving DecidableEq, Repr

/-- The `submit_success` call: posts the seven-field success payload (the
`status` key is deliberately omitted so the controller applies its default
terminal state) to `/api/asr/result`; a failed POST is only logged. -/
def submit_success (job_id : Option Nat) (cfg : Config) (model_name : String)
    (metrics : TranscribeOut) (post : PostOutcome) : ReportAttempt :=
  { url := cfg.api_base ++ "/api/asr/result"
    body :=
      [("id", jsonOfOptId job_id),
       ("asr_text", Json.str metrics.text),
       ("asr_model", Json.str model_name),
       ("asr_avg_logprob", jsonOfOptNum metrics.asr_avg_logprob),
       ("asr_compression_ratio", jsonOfOptNum metrics.asr_compression_ratio),
       ("asr_no_speech_prob", jsonOfOptNum metrics.asr_no_speech_prob),
       ("asr_speech_ratio", jsonOfOptNum metrics.asr_speech_ratio)]
    ok := http_post_json_ok post }

/-- The `submit_failure` call: posts `{id, status: "asr_failed", error}`
with the error message sliced to its first 500 characters
(`error_msg[:500]`); a failed POST is only logged. -/
def submit_failure (job_id : Option Nat) (cfg : Config) (error_msg : String)
    (post : PostOutcome) : ReportAttempt :=
  { url := cfg.api_base ++ "/api/asr/result"
    body :=
      [("id", jsonOfOptId job_id),
       ("status", Json.str "asr_failed"),
       ("error", Json.str (String.mk (error_msg.data.take 500)))]
    ok := http_post_json_ok post }

/-- A job descriptor handed out by the job source.  `id` and `audio_url`
may be absent (the bare-object response path requires them, but a job
nested under a `"job"` key is returned as-is); the metadata fields are
carried through to the queue record unchanged. -/
structure SourceJob where
  id : Option Nat
  audio_url : Option String
  object_key : Option String
  channel_label : Option Json
  freq_hz : Option Json
  started_at : Option Json
  deriving DecidableEq, Repr

/-- Body of a `/api/asr/next` response: the value under the `"job"` key if
present, and the response object itself reinterpreted as a job when it
carries both `id` and `audio_url` (`as_job` is `some` exactly in that
case). -/
structure NextJobData where
  job_field : Option SourceJob
  as_job : Option SourceJob
  deriving DecidableEq, Repr

/-- Outcome of the poll POST to `/api/asr/next`. -/
inductive PollResponse where
  | status (code : Nat) (data : NextJobData) : PollResponse
  | exc : PollResponse
  deriving DecidableEq, Repr

/-- The `http_post_next_job` helper: `none` on a network exception or a
non-200 status (both are logged and swallowed); otherwise the job under the
`"job"` key, falling back to the response object itself when it has `id`
and `audio_url`. -/
def http_post_next_job (resp : PollResponse) : Option SourceJob :=
  match resp with
  | PollResponse.exc => none
  | PollResponse.status code data =>
    if code ≠ 200 then none
    else
      match data.job_field with
      | some j => some j
      | none => data.as_job

/-- The `download_audio` function.  It returns `none` (no file) when the
job has no truthy `audio_url` or when the streamed GET raises
(`fetch_ok = false`); otherwise the cache path derived from `object_key`
(or a `job-<id>` / `job-<now>` fallback), with `.bin` appended when the
basename has no extension. -/
def download_audio (job : SourceJob) (cfg : Config) (fetch_ok : Bool)
    (now : Nat) : Option String :=
  match job.audio_url with
  | none => none
  | some u =>
    if u = "" then none
    else
      let fallback := "job-" ++ (match job.id with
        | some i => toString i
        | none => toString now)
      let object_key := match job.object_key with
        | some k => if k = "" then fallback else k
        | none => fallback
      let basename := (object_key.splitOn "/").getLastD object_key
      let basename := if basename.contains '.' then basename
        else basename ++ ".bin"
      if fetch_ok then some (cfg.audio_cache_dir ++ "/" ++ basename)
      else none

/-- Metadata dictionary stored in the queue record. -/
structure Meta where
  channel_label : Option Json
  freq_hz : Option Json
  started_at : Option Json
  deriving DecidableEq, Repr

/-- A record enqueued by the downloader for the transcription workers
(the `QueuedJob` of the data model: job id, local audio path, metadata). -/
structure QueuedItem where
  id : Option Nat
  path : String
  meta : Meta
  deriving DecidableEq, Repr

/-- Externally visible effects of one iteration of `downloader_loop`:
whether the job source was polled, whether an audio download was attempted,
the report POSTs issued, the records enqueued, and the seconds slept before
the next iteration. -/
structure DlStepResult where
  polled : Bool
  fetch_attempted : Bool
  attempts : List ReportAttempt
  enqueued : List QueuedItem
  sleep_s : ℚ
  deriving DecidableEq, Repr

/-- One iteration of `downloader_loop`, as a function of what the iteration
reads: the observed queue size, the poll response, the download outcome and
the POST outcome used for a failure report.  Queue at capacity → sleep 0.2s
without polling; no job → sleep the idle interval; download failure →
report `download_failed` only when the job has an id, then continue with no
sleep; otherwise enqueue the record and continue with no sleep. -/
def downloader_step (cfg : Config) (qsize : Nat) (resp : PollResponse)
    (fetch_ok : Bool) (now : Nat) (post : PostOutcome) : DlStepResult :=
  if qsize ≥ cfg.max_queue_size then
    { polled := false, fetch_attempted := false, attempts := [],
      enqueued := [], sleep_s := 1/5 }
  else
    match http_post_next_job resp with
    | none =>
      { polled := true, fetch_attempted := false, attempts := [],
        enqueued := [], sleep_s := cfg.poll_idle_seconds }
    | some job =>
      match download_audio job cfg fetch_ok now with
      | none =>
        { polled := true, fetch_attempted := true
          attempts := match job.id with
            | some i => [submit_failure (some i) cfg "download_failed" post]
            | none => []
          enqueued := [], sleep_s := 0 }
      | some path =>
        { polled := true, fetch_attempted := true, attempts := [],
          enqueued := [{ id := job.id, path := path,
                         meta := { channel_label := job.channel_label,
                                   freq_hz := job.freq_hz,
                                   started_at := job.started_at } }],
          sleep_s := 0 }

/-- Effects of processing one dequeued record in the body of
`worker_loop`: the report attempts issued and the records put back on the
queue (the loop never re-enqueues, so the latter is always empty in the
embedding, proved rather than assumed via `WorkerStepResult.q'`). -/
def worker_process (item : QueuedItem) (cfg : Config)
    (tr : Except String TranscribeOut) (post : PostOutcome) :
    List ReportAttempt :=
  match tr with
  | Except.ok metrics =>
    [submit_success item.id cfg cfg.whisper_model metrics post]
  | Except.error e =>
    [submit_failure item.id cfg ("transcription_failed: " ++ e) post]

/-- Externally visible effects of one iteration of `worker_loop`: whether
the loop breaks, the queue left behind, and the report POSTs issued. -/
structure WorkerStepResult where
  exits : Bool
  q' : List QueuedItem
  attempts : List ReportAttempt
  deriving DecidableEq, Repr

/-- One iteration of `worker_loop` as a function of what it reads: the
shared shutdown flag at the top-of-loop check (`shutdown1`), the queue
contents, the flag again at the pop-timeout check (`shutdown2`, a separate
read because the flag may flip concurrently), the transcription outcome and
the POST outcome.  `SHUTDOWN and q.empty()` at the top breaks; a pop on an
empty queue times out and breaks when `SHUTDOWN` is set, else retries; a
dequeued item is processed by `worker_process` and `task_done` runs in a
`finally`, so the item is consumed in every case. -/
def workerStep (shutdown1 : Bool) (q : List QueuedItem) (shutdown2 : Bool)
    (cfg : Config) (tr : Except String TranscribeOut) (post : PostOutcome) :
    WorkerStepResult :=
  if shutdown1 && q.isEmpty then
    { exits := true, q' := q, attempts := [] }
  else
    match q with
    | [] =>
      if shutdown2 then { exits := true, q' := [], attempts := [] }
      else { exits := false, q' := [], attempts := [] }
    | item :: rest =>
      { exits := false, q' := rest
        attempts := worker_process item cfg tr post }

/-- Result of one invocation of the `handle_signal` handler: the new value
of the shared `SHUTDOWN` flag, whether the process is terminated on the
spot (`sys.exit(1)`), and the report POSTs it issues (the handler only
prints, so this list is always empty — stated and proved, not assumed). -/
structure SignalResult where
  shutdown : Bool
  exits_process : Bool
  attempts : List ReportAttempt
  deriving DecidableEq, Repr

/-- The `handle_signal` handler: on the first signal (`SHUTDOWN` still
false) it sets the flag and returns; on a second signal (`SHUTDOWN` already
true) it calls `sys.exit(1)` immediately.  `handle_signal` is the only
writer of `SHUTDOWN` after initialisation. -/
def handle_signal (shutdown : Bool) : SignalResult :=
  if !shutdown then
    { shutdown := true, exits_process := false, attempts := [] }
  else
    { shutdown := shutdown, exits_process := true, attempts := [] }

/-- Atomic transitions of the bounded job queue
(`queue.Queue(maxsize = cfg.max_queue_size)`): a `put` completes only when
the current size is below capacity (the queue blocks the producer
otherwise, and the downloader additionally checks `qsize() >= max` before
calling `put`), and a `get` removes the head when one exists.  Any
interleaving of the one producer and the N consumers is a sequence of these
transitions, because `Queue` serialises push/pop under its internal lock. -/
inductive QStep (cap : Nat) : List QueuedItem → List QueuedItem → Prop
  | push (x : QueuedItem) (q : List QueuedItem) :
      q.length < cap → QStep cap q (q ++ [x])
  | pop (x : QueuedItem) (q : List QueuedItem) :
      QStep cap (x :: q) q

/-- Queue states reachable from the initial empty queue by any interleaving
of pushes and pops. -/
inductive QReachable (cap : Nat) : List QueuedItem → Prop
  | init : QReachable cap []
  | step {q q' : List QueuedItem} :
      QReachable cap q → QStep cap q q' → QReachable cap q'

/-- Example segment list for the aggregation claim: per-segment
`avg_logprob` values `[-0.1, -0.3, null]`, speech durations `4 + 2 + 0 = 6`
seconds. -/
def exSegs : List Segment :=
  [{ start := 0, «end» := 4, text := "a", avg_logprob := some (-1/10),
     compression_ratio := some 1, no_speech_prob := some (1/10) },
   { start := 4, «end» := 6, text := "b", avg_logprob := some (-3/10),
     compression_ratio := none, no_speech_prob := some (3/10) },
   { start := 6, «end» := 6, text := "c", avg_logprob := none,
     compression_ratio := some 2, no_speech_prob := none }]

/-- C2: for every segment list, `transcribe` returns the arithmetic mean of
the present `avg_logprob` values (none if no segment has one), the mean of
the present `compression_ratio` values, the maximum of the present
`no_speech_prob` values, and speech ratio = summed positive segment
durations / total duration, none when the duration is absent or not
positive; on segments with logprobs `[-0.1, -0.3, null]` the aggregate is
`-0.2`, and 6 s of speech in 10 s of audio gives ratio `0.6`. -/
theorem C2_transcribe_aggregation :
    (∀ (segs : List Segment) (duration : Option ℚ) (elapsed : ℚ),
      (transcribe segs duration elapsed).asr_avg_logprob =
        (if (segs.filterMap Segment.avg_logprob).isEmpty then none
         else some ((segs.filterMap Segment.avg_logprob).sum /
           ((segs.filterMap Segment.avg_logprob).length : ℚ))) ∧
      (transcribe segs duration elapsed).asr_compression_ratio =
        (if (segs.filterMap Segment.compression_ratio).isEmpty then none
         else some ((segs.filterMap Segment.compression_ratio).sum /
           ((segs.filterMap Segment.compression_ratio).length : ℚ))) ∧
      (transcribe segs duration elapsed).asr_no_speech_prob =
        (segs.filterMap Segment.no_speech_prob).max? ∧
      (transcribe segs duration elapsed).asr_speech_ratio =
        (match duration with
         | some d => if 0 < d then some (speechSum segs / d) else none
         | none => none)) ∧
    (transcribe exSegs (some 10) 1).asr_avg_logprob = some (-1/5) ∧
    (transcribe exSegs (some 10) 1).asr_compression_ratio = some (3/2) ∧
    (transcribe exSegs (some 10) 1).asr_no_speech_prob = some (3/10) ∧
    (transcribe exSegs (some 10) 1).asr_speech_ratio = some (3/5) ∧
    (transcribe exSegs none 1).asr_speech_ratio = none ∧
    (transcribe exSegs (some 0) 1).asr_speech_ratio = none := by
  have hgen : ∀ (segs : List Segment) (duration : Option ℚ) (elapsed : ℚ),
      (transcribe segs duration elapsed).asr_avg_logprob =
        (if (segs.filterMap Segment.avg_logprob).isEmpty then none
         else some ((segs.filterMap Segment.avg_logprob).sum /
           ((segs.filterMap Segment.avg_logprob).length : ℚ))) ∧
      (transcribe segs duration elapsed).asr_compression_ratio =
        (if (segs.filterMap Segment.compression_ratio).isEmpty then none
         else some ((segs.filterMap Segment.compression_ratio).sum /
           ((segs.filterMap Segment.compression_ratio).length : ℚ))) ∧
      (transcribe segs duration elapsed).asr_no_speech_prob =
        (segs.filterMap Segment.no_speech_prob).max? ∧
      (transcribe segs duration elapsed).asr_speech_ratio =
        (match duration with
         | some d => if 0 < d then some (speechSum segs / d) else none
         | none => none) := by
    intro segs duration elapsed
    have h := foldl_tStep segs ⟨0, 0, 0, [], []⟩
    refine ⟨?_, ?_, ?_, ?_⟩
    · simp only [transcribe, h]
      rcases hl : segs.filterMap Segment.avg_logprob with _ | ⟨x, xs⟩ <;> simp
    · simp only [transcribe, h]
      rcases hl : segs.filterMap Segment.compression_ratio with _ | ⟨x, xs⟩ <;>
        simp
    · simp only [transcribe, h]
      rcases hl : segs.filterMap Segment.no_speech_prob with _ | ⟨x, xs⟩ <;>
        simp [List.max?]
    · simp only [transcribe, h]
      cases duration <;> simp
  refine ⟨hgen, ?_, ?_, ?_, ?_, ?_, ?_⟩
  · rw [(hgen exSegs (some 10) 1).1]
    simp only [exSegs, List.filterMap_cons]
    norm_num
  · rw [(hgen exSegs (some 10) 1).2.1]
    simp only [exSegs, List.filterMap_cons]
    norm_num
  · rw [(hgen exSegs (some 10) 1).2.2.1]
    simp only [exSegs, List.filterMap_cons]
    norm_num [List.max?, max_def]
  · rw [(hgen exSegs (some 10) 1).2.2.2]
    norm_num [speechSum, exSegs]
  · rw [(hgen exSegs none 1).2.2.2]
  · rw [(hgen exSegs (some 0) 1).2.2.2]
    norm_num

/-- Concrete configuration used to instantiate the universally quantified
theorems on closed inputs. -/
def cfg₀ : Config :=
  { api_base := "http://localhost:3000", api_token := "token" }

/-- Concrete queue record used to instantiate theorems on closed inputs. -/
def item₀ : QueuedItem :=
  { id := some 42, path := ".asr_cache/a.mp3",
    meta := { channel_label := none, freq_hz := none, started_at := none } }

/-- A job descriptor with no `id` and no `audio_url` (reachable through the
`"job"`-key response path, which does not validate fields). -/
def job₀ : SourceJob :=
  { id := none, audio_url := none, object_key := none,
    channel_label := none, freq_hz := none, started_at := none }

/-- A well-formed job descriptor with id 42. -/
def job₄₂ : SourceJob :=
  { id := some 42, audio_url := some "https://example.com/a.mp3",
    object_key := some "audio/a.mp3", channel_label := none,
    freq_hz := none, started_at := none }

/-- C6: the error string placed in the failure payload is the first 500
characters of the message — reported unchanged when the message has at most
500 characters, and cut to exactly 500 characters for an 800-character
message. -/
theorem C6_error_truncated_to_500 :
    (∀ (job_id : Option Nat) (cfg : Config) (msg : String) (post : PostOutcome),
      (submit_failure job_id cfg msg post).body.lookup "error" =
        some (Json.str (String.mk (msg.data.take 500))) ∧
      (String.mk (msg.data.take 500)).length = min 500 msg.length ∧
      (msg.length ≤ 500 → String.mk (msg.data.take 500) = msg)) ∧
    String.mk ((String.mk (List.replicate 800 'a')).data.take 500) =
      String.mk (List.replicate 500 'a') ∧
    (String.mk (List.replicate 800 'a')).length = 800 ∧
    (String.mk (List.replicate 500 'a')).length = 500 := by
  refine ⟨?_, ?_, ?_, ?_⟩
  · intro job_id cfg msg post
    refine ⟨rfl, ?_, ?_⟩
    · show (msg.data.take 500).length = min 500 msg.data.length
      simp
    · intro h
      have h2 : msg.data.take 500 = msg.data := List.take_of_length_le h
      rw [h2]
  · show String.mk ((List.replicate 800 'a').take 500) =
      String.mk (List.replicate 500 'a')
    rw [List.take_replicate]
    norm_num
  · show (List.replicate 800 'a').length = 800
    rw [List.length_replicate]
  · show (List.replicate 500 'a').length = 500
    rw [List.length_replicate]

/-- C6 witness: a 4-character message is reported unchanged. -/
theorem C6_error_truncated_to_500_witness :
    (submit_failure (some 1) cfg₀ "boom" (PostOutcome.status 200)).body.lookup
      "error" = some (Json.str "boom") := by
  have h := C6_error_truncated_to_500.1 (some 1) cfg₀ "boom"
    (PostOutcome.status 200)
  have h2 : String.mk (("boom" : String).data.take 500) = "boom" :=
    h.2.2 (by decide)
  rw [h.1, h2]

/-- C5 counterexample: the failure payload's `status` value is
`"asr_failed"`, not `"failed"` as the claim states. -/
theorem C5_counterexample :
    (submit_failure (some 7) cfg₀ "boom" (PostOutcome.status 200)).body.lookup
      "status" = some (Json.str "asr_failed") ∧
    Json.str "asr_failed" ≠ Json.str "failed" := by
  exact ⟨rfl, by decide⟩

/-- C5 (amended): the success path posts exactly the keys `id`, `asr_text`,
`asr_model`, `asr_avg_logprob`, `asr_compression_ratio`,
`asr_no_speech_prob`, `asr_speech_ratio` with no `status` key, and the
failure path posts exactly `{id, status: "asr_failed", error}`. -/
theorem C5_result_payload_shapes :
    ∀ (job_id : Option Nat) (cfg : Config) (model_name : String)
      (metrics : TranscribeOut) (msg : String) (post : PostOutcome),
      (submit_success job_id cfg model_name metrics post).body.map Prod.fst =
        ["id", "asr_text", "asr_model", "asr_avg_logprob",
         "asr_compression_ratio", "asr_no_speech_prob", "asr_speech_ratio"] ∧
      (submit_success job_id cfg model_name metrics post).body.lookup
        "status" = none ∧
      (submit_success job_id cfg model_name metrics post).body.lookup
        "asr_text" = some (Json.str metrics.text) ∧
      (submit_failure job_id cfg msg post).body.map Prod.fst =
        ["id", "status", "error"] ∧
      (submit_failure job_id cfg msg post).body.lookup "id" =
        some (jsonOfOptId job_id) ∧
      (submit_failure job_id cfg msg post).body.lookup "status" =
        some (Json.str "asr_failed") ∧
      (submit_failure job_id cfg msg post).body.lookup "error" =
        some (Json.str (String.mk (msg.data.take 500))) := by
  intro job_id cfg model_name metrics msg post
  exact ⟨rfl, rfl, rfl, rfl, rfl, rfl, rfl⟩

/-- C3: every queue state reachable by any interleaving of producer pushes
and consumer pops holds at most `cap` records. -/
theorem C3_queue_never_exceeds_capacity (cap : Nat) (q : List QueuedItem)
    (h : QReachable cap q) : q.length ≤ cap := by
  induction h with
  | init => simp
  | step hr hs ih =>
    cases hs with
    | push x q hlt => simpa using hlt
    | pop x q => simp at ih ⊢; omega

/-- C3 witness: after one push into an empty queue of capacity 8, the bound
holds. -/
theorem C3_queue_never_exceeds_capacity_witness :
    ([item₀] : List QueuedItem).length ≤ 8 :=
  C3_queue_never_exceeds_capacity 8 [item₀]
    (QReachable.step QReachable.init (QStep.push item₀ [] (by decide)))

/-- C9: the shutdown coordinator is a monotonic two-state machine — the
first signal flips the flag false→true and returns (no process exit, no
report), the flag never returns to false, a second signal while shutting
down exits the process immediately with no report; and with the flag set a
worker holding a queued item still processes and reports it. -/
theorem C9_shutdown_two_state :
    (handle_signal false).shutdown = true ∧
    (handle_signal false).exits_process = false ∧
    (∀ b, (handle_signal b).shutdown = true) ∧
    (handle_signal true).exits_process = true ∧
    (∀ b, (handle_signal b).attempts = []) ∧
    (∀ (item : QueuedItem) (rest : List QueuedItem) (s2 : Bool) (cfg : Config)
       (tr : Except String TranscribeOut) (post : PostOutcome),
      (workerStep true (item :: rest) s2 cfg tr post).exits = false ∧
      (workerStep true (item :: rest) s2 cfg tr post).attempts.length = 1) := by
  refine ⟨rfl, rfl, ?_, rfl, ?_, ?_⟩
  · intro b; cases b <;> rfl
  · intro b; cases b <;> rfl
  · intro item rest s2 cfg tr post
    cases tr <;> exact ⟨rfl, rfl⟩

/-- C8: a worker-loop iteration exits exactly when the queue is empty and
the shutdown flag was read as set (at the top-of-loop check or at the
pop-timeout check, whose guards coincide); with the flag clear at both
reads the worker never exits, it retries the pop. -/
theorem C8_worker_exits_only_on_shutdown :
    ∀ (s1 : Bool) (q : List QueuedItem) (s2 : Bool) (cfg : Config)
      (tr : Except String TranscribeOut) (post : PostOutcome),
      ((workerStep s1 q s2 cfg tr post).exits = true ↔
        q = [] ∧ (s1 = true ∨ s2 = true)) ∧
      (s1 = false → s2 = false →
        (workerStep s1 q s2 cfg tr post).exits = false) := by
  intro s1 q s2 cfg tr post
  cases q <;> cases s1 <;> cases s2 <;> simp [workerStep]

/-- C8 witness: with the flag clear at both reads and an empty queue, the
pop times out and the worker retries instead of exiting. -/
theorem C8_worker_exits_only_on_shutdown_witness :
    (workerStep false [] false cfg₀ (Except.error "e") PostOutcome.exc).exits =
      false :=
  (C8_worker_exits_only_on_shutdown false [] false cfg₀ (Except.error "e")
    PostOutcome.exc).2 rfl rfl

/-- C1: processing a dequeued record issues exactly one report POST — the
success payload when `transcribe` returns, the
`transcription_failed: <err>` failure payload when it raises — the record
is consumed and never re-enqueued, the loop continues, and the posted
bodies do not depend on whether the report POST itself succeeded (a failed
POST is logged, not retried). -/
theorem C1_one_report_per_dequeued_job :
    ∀ (s1 s2 : Bool) (item : QueuedItem) (rest : List QueuedItem)
      (cfg : Config) (tr : Except String TranscribeOut) (post : PostOutcome),
      (workerStep s1 (item :: rest) s2 cfg tr post).attempts.length = 1 ∧
      (∀ m, tr = Except.ok m →
        (workerStep s1 (item :: rest) s2 cfg tr post).attempts =
          [submit_success item.id cfg cfg.whisper_model m post]) ∧
      (∀ e, tr = Except.error e →
        (workerStep s1 (item :: rest) s2 cfg tr post).attempts =
          [submit_failure item.id cfg ("transcription_failed: " ++ e) post]) ∧
      (workerStep s1 (item :: rest) s2 cfg tr post).q' = rest ∧
      (workerStep s1 (item :: rest) s2 cfg tr post).exits = false ∧
      (∀ post' : PostOutcome,
        (workerStep s1 (item :: rest) s2 cfg tr post').attempts.map
            ReportAttempt.body =
          (workerStep s1 (item :: rest) s2 cfg tr post).attempts.map
            ReportAttempt.body) := by
  intro s1 s2 item rest cfg tr post
  refine ⟨?_, ?_, ?_, ?_, ?_, ?_⟩
  · cases tr <;> simp [workerStep, worker_process]
  · intro m hm; subst hm; simp [workerStep, worker_process]
  · intro e he; subst he; simp [workerStep, worker_process]
  · cases tr <;> simp [workerStep, worker_process]
  · cases tr <;> simp [workerStep, worker_process]
  · intro post'
    cases tr <;>
      simp [workerStep, worker_process, submit_success, submit_failure]

/-- C1 witness: a failing transcription of a concrete item yields exactly
the one failure report even though the report POST itself returns 500. -/
theorem C1_one_report_per_dequeued_job_witness :
    (workerStep false [item₀] false cfg₀ (Except.error "boom")
        (PostOutcome.status 500)).attempts =
      [submit_failure item₀.id cfg₀ ("transcription_failed: " ++ "boom")
        (PostOutcome.status 500)] :=
  (C1_one_report_per_dequeued_job false false item₀ [] cfg₀
    (Except.error "boom") (PostOutcome.status 500)).2.2.1 "boom" rfl

/-- C7: a downloader iteration that observes the queue at capacity sleeps
0.2 s and does not poll the job source; one whose poll yields no job (no
job available, non-200 status, or a network exception — all give
`http_post_next_job = none`) attempts no download, enqueues nothing,
reports nothing, and sleeps the configured idle interval. -/
theorem C7_backpressure_and_idle_poll :
    ∀ (cfg : Config) (qsize : Nat) (resp : PollResponse) (fetch_ok : Bool)
      (now : Nat) (post : PostOutcome),
      (qsize ≥ cfg.max_queue_size →
        downloader_step cfg qsize resp fetch_ok now post =
          { polled := false, fetch_attempted := false, attempts := [],
            enqueued := [], sleep_s := 1/5 }) ∧
      (qsize < cfg.max_queue_size → http_post_next_job resp = none →
        downloader_step cfg qsize resp fetch_ok now post =
          { polled := true, fetch_attempted := false, attempts := [],
            enqueued := [], sleep_s := cfg.poll_idle_seconds }) := by
  intro cfg qsize resp fetch_ok now post
  constructor
  · intro h
    simp [downloader_step, h]
  · intro h hj
    have h' : ¬ qsize ≥ cfg.max_queue_size := Nat.not_le.mpr h
    simp [downloader_step, h', hj]

/-- C7 witness: queue at capacity (9 ≥ 8) → no poll, 0.2 s sleep. -/
theorem C7_backpressure_and_idle_poll_witness :
    downloader_step cfg₀ 9 PollResponse.exc true 0 (PostOutcome.status 200) =
      { polled := false, fetch_attempted := false, attempts := [],
        enqueued := [], sleep_s := 1/5 } :=
  (C7_backpressure_and_idle_poll cfg₀ 9 PollResponse.exc true 0
    (PostOutcome.status 200)).1 (by decide)

/-- C4 counterexample: a job delivered under the `"job"` key with no `id`
and no `audio_url` fails its audio fetch (`download_audio` returns none),
yet the downloader issues no failure report at all — refuting "every job
whose audio fetch fails gets exactly one failure report". -/
theorem C4_counterexample :
    http_post_next_job (PollResponse.status 200 ⟨some job₀, none⟩) =
      some job₀ ∧
    download_audio job₀ cfg₀ true 0 = none ∧
    (downloader_step cfg₀ 0 (PollResponse.status 200 ⟨some job₀, none⟩) true 0
      (PostOutcome.status 200)).attempts = [] := by
  exact ⟨rfl, rfl, rfl⟩

/-- C4 (amended): for every job whose audio fetch fails and whose
descriptor carries an id, the downloader issues exactly one failure report
for that id with error text `download_failed`, enqueues nothing, and
continues with no sleep; a job without an id is dropped without a report. -/
theorem C4_download_failure_terminal :
    ∀ (cfg : Config) (qsize : Nat) (resp : PollResponse) (fetch_ok : Bool)
      (now : Nat) (post : PostOutcome) (job : SourceJob) (i : Nat),
      qsize < cfg.max_queue_size →
      http_post_next_job resp = some job →
      job.id = some i →
      download_audio job cfg fetch_ok now = none →
      (downloader_step cfg qsize resp fetch_ok now post).attempts =
        [submit_failure (some i) cfg "download_failed" post] ∧
      (downloader_step cfg qsize resp fetch_ok now post).enqueued = [] ∧
      (downloader_step cfg qsize resp fetch_ok now post).sleep_s = 0 ∧
      (submit_failure (some i) cfg "download_failed" post).body.lookup
        "error" = some (Json.str "download_failed") := by
  intro cfg qsize resp fetch_ok now post job i hq hresp hid hdl
  have h' : ¬ qsize ≥ cfg.max_queue_size := Nat.not_le.mpr hq
  refine ⟨?_, ?_, ?_, rfl⟩ <;> simp [downloader_step, h', hresp, hdl, hid]

/-- C4 witness: job 42's fetch fails → exactly one `download_failed` report
for id 42, nothing enqueued, no sleep. -/
theorem C4_download_failure_terminal_witness :
    (downloader_step cfg₀ 0 (PollResponse.status 200 ⟨some job₄₂, none⟩) false
        0 (PostOutcome.status 200)).attempts =
      [submit_failure (some 42) cfg₀ "download_failed"
        (PostOutcome.status 200)] :=
  (C4_download_failure_terminal cfg₀ 0
    (PollResponse.status 200 ⟨some job₄₂, none⟩) false 0
    (PostOutcome.status 200) job₄₂ 42 (by decide) rfl rfl rfl).1

/-- C10: when the audio fetch fails for a job whose descriptor has no `id`,
the downloader reports nothing and enqueues nothing — the job is silently
dropped while the loop goes on (continue with no sleep). -/
theorem C10_missing_id_silently_dropped :
    ∀ (cfg : Config) (qsize : Nat) (resp : PollResponse) (fetch_ok : Bool)
      (now : Nat) (post : PostOutcome) (job : SourceJob),
      qsize < cfg.max_queue_size →
      http_post_next_job resp = some job →
      job.id = none →
      download_audio job cfg fetch_ok now = none →
      (downloader_step cfg qsize resp fetch_ok now post).attempts = [] ∧
      (downloader_step cfg qsize resp fetch_ok now post).enqueued = [] ∧
      (downloader_step cfg qsize resp fetch_ok now post).sleep_s = 0 := by
  intro cfg qsize resp fetch_ok now post job hq hresp hid hdl
  have h' : ¬ qsize ≥ cfg.max_queue_size := Nat.not_le.mpr hq
  refine ⟨?_, ?_, ?_⟩ <;> simp [downloader_step, h', hresp, hdl, hid]

/-- C10 witness: the id-less job with a failing fetch produces no report
and no queue entry. -/
theorem C10_missing_id_silently_dropped_witness :
    (downloader_step cfg₀ 0 (PollResponse.status 200 ⟨some job₀, none⟩) true 0
        (PostOutcome.status 200)).attempts = [] ∧
    (downloader_step cfg₀ 0 (PollResponse.status 200 ⟨some job₀, none⟩) true 0
        (PostOutcome.status 200)).enqueued = [] := by
  have h := C10_missing_id_silently_dropped cfg₀ 0
    (PollResponse.status 200 ⟨some job₀, none⟩) true 0 (PostOutcome.status 200)
    job₀ (by decide) rfl rfl rfl
  exact ⟨h.1, h.2.1⟩

end AsrWorker
